import Mathlib

/-!
Verification of the hvac-air-quality-analysis collectors and schema-repair
tool.  The definitions below are shallow embeddings of the Python source:

* `HvacSpec.V2` models `collect_with_sheets_api_v2.py`
* `HvacSpec.V1` models `collect_with_sheets_api.py`
* `HvacSpec.Legacy` models `collect_air_quality.py`
* `HvacSpec.FixSheets` models `fix_sheets_schema.py`

Numbers are modelled as rationals; Python `round(x, n)` (round half to
even) is modelled by `roundHalfEven`.  Sheet cells hold either a number or
a string, modelled by `Value`.
-/

namespace HvacSpec

/-- A spreadsheet cell / JSON scalar: either a number or a string.
The collectors use the empty string as the canonical "absent" marker. -/
inductive Value where
  | num (q : ℚ)
  | str (s : String)
deriving DecidableEq, Repr

/-- Round half to even, the tie-breaking rule of Python's built-in
`round`, on a rational number. -/
def roundHalfEven (q : ℚ) : ℤ :=
  if q - ⌊q⌋ < 1/2 then ⌊q⌋
  else if 1/2 < q - ⌊q⌋ then ⌊q⌋ + 1
  else if ⌊q⌋ % 2 = 0 then ⌊q⌋ else ⌊q⌋ + 1

/-- Python `round(q, 2)`. -/
def round2 (q : ℚ) : ℚ := (roundHalfEven (q * 100) : ℚ) / 100

/-- Python `round(q, 1)`. -/
def round1 (q : ℚ) : ℚ := (roundHalfEven (q * 10) : ℚ) / 10

/-- Python `d.get(k, dflt)` for a string-keyed dictionary of numbers. -/
def dictGet (d : List (String × ℚ)) (k : String) (dflt : ℚ) : ℚ :=
  match d with
  | [] => dflt
  | (k2, v) :: rest => if k2 = k then v else dictGet rest k dflt

/-- A sensor reading as produced by the Airthings / AirGradient adapters:
a dictionary with identity strings and measurement fields.  `pm25` is
always numeric in every adapter (missing vendor fields default to 0),
while the remaining measurement fields may carry the empty-string
"absent" marker, so they are kept as `Value`. -/
structure Reading where
  sensor_id : String
  room : String
  sensor_type : String
  pm25 : ℚ
  co2 : Value
  voc : Value
  nox : Value
  temp : Value
  humidity : Value
  radon : Value
deriving DecidableEq, Repr

/-- A temperature/humidity-only reading as produced by the Temp Stick
adapter (`get_tempstick_data`). -/
structure TempReading where
  sensor_id : String
  room : String
  sensor_type : String
  temp : Value
  humidity : Value
deriving DecidableEq, Repr

/-- The canonical 18-element header list, as written in `ensure_headers`
(both collectors) and in `SheetsFixer.analyze_schemas` (`new_headers`). -/
def canonicalHeaders : List String :=
  ["Timestamp", "Sensor_ID", "Room", "Sensor_Type", "Indoor_PM25", "Outdoor_PM25",
   "Filter_Efficiency", "Indoor_CO2", "Indoor_VOC", "Indoor_NOX", "Indoor_Temp",
   "Indoor_Humidity", "Indoor_Radon", "Outdoor_CO2", "Outdoor_Temp", "Outdoor_Humidity",
   "Outdoor_VOC", "Outdoor_NOX"]

/-- Observable outcome of one run of a collector's `main`:
the rows passed to `append_to_sheet`, how many of those appends reported
success, whether the local JSON backup file was written, and whether the
run raised an uncaught exception. -/
structure RunResult where
  appended : List (List Value)
  successCount : ℕ
  backupWritten : Bool
  crashed : Bool

namespace V2

/-- `collect_with_sheets_api_v2.calculate_efficiency`:
if `outdoor_pm25 <= 0` return `100.0 if indoor_pm25 <= 0 else 0.0`;
otherwise `round(max(0, min(100, ((outdoor - indoor)/outdoor)*100)), 2)`. -/
def calculate_efficiency (indoor_pm25 outdoor_pm25 : ℚ) : ℚ :=
  if outdoor_pm25 ≤ 0 then (if indoor_pm25 ≤ 0 then 100 else 0)
  else round2 (max 0 (min 100 ((outdoor_pm25 - indoor_pm25) / outdoor_pm25 * 100)))

/-- `collect_with_sheets_api_v2.build_air_quality_row`: the 18-field row
for an air quality sensor, in the source's literal order. -/
def build_air_quality_row (timestamp : String) (sensor outdoor : Reading)
    (efficiency : ℚ) : List Value :=
  [ .str timestamp,
    .str sensor.sensor_id,
    .str sensor.room,
    .str sensor.sensor_type,
    .num sensor.pm25,
    .num outdoor.pm25,
    .num efficiency,
    sensor.co2,
    sensor.voc,
    sensor.nox,
    sensor.temp,
    sensor.humidity,
    sensor.radon,
    outdoor.co2,
    outdoor.temp,
    outdoor.humidity,
    outdoor.voc,
    outdoor.nox ]

/-- `collect_with_sheets_api_v2.build_temp_only_row`: the 18-field row for
a temp/humidity-only sensor, with empty strings in the air-quality slots. -/
def build_temp_only_row (timestamp : String) (sensor : TempReading) : List Value :=
  [ .str timestamp,
    .str sensor.sensor_id,
    .str sensor.room,
    .str sensor.sensor_type,
    .str "",
    .str "",
    .str "",
    .str "",
    .str "",
    .str "",
    sensor.temp,
    sensor.humidity,
    .str "",
    .str "",
    .str "",
    .str "",
    .str "",
    .str "" ]

/-- The reading built by `collect_with_sheets_api_v2.get_airthings_data`
from the new ("results") vendor response shape: `sensor_data` is the
sensorType-to-value dictionary extracted from `results[0]["sensors"]`. -/
def get_airthings_reading_new (serial_suffix : String)
    (sensor_data : List (String × ℚ)) : Reading :=
  { sensor_id := "airthings_" ++ serial_suffix
    room := "master_bedroom"
    sensor_type := "airthings"
    pm25 := dictGet sensor_data "pm25" 0
    co2 := .num (dictGet sensor_data "co2" 0)
    voc := .num (dictGet sensor_data "voc" 0)
    nox := .str ""
    temp := .num (dictGet sensor_data "temp" 0)
    humidity := .num (dictGet sensor_data "humidity" 0)
    radon := .num (dictGet sensor_data "radonShortTermAvg" 0) }

/-- The reading built by `collect_with_sheets_api_v2.get_airthings_data`
from the old ("sensors") vendor response shape: `sensor` is the field
dictionary `sensors[0]`. -/
def get_airthings_reading_old (serial_suffix : String)
    (sensor : List (String × ℚ)) : Reading :=
  { sensor_id := "airthings_" ++ serial_suffix
    room := "master_bedroom"
    sensor_type := "airthings"
    pm25 := dictGet sensor "pm25" 0
    co2 := .num (dictGet sensor "co2" 0)
    voc := .num (dictGet sensor "voc" 0)
    nox := .str ""
    temp := .num (dictGet sensor "temp" 0)
    humidity := .num (dictGet sensor "humidity" 0)
    radon := .num (dictGet sensor "radonShortTermAvg" 0) }

/-- `collect_with_sheets_api_v2.ensure_headers`, modelled on the current
first row of the sheet (`values` from the range read, `[]` when absent).
Returns `(wrote, returned)`: whether the header row was overwritten, and
the function's return value.  In v2 both the just-updated and the
already-correct branches return `True`. -/
def ensure_headers (values : List (List String)) : Bool × Bool :=
  if values = [] ∨ values.headD [] ≠ canonicalHeaders then (true, true)
  else (false, true)

/-- Inputs of one collection cycle of `collect_with_sheets_api_v2.main`:
whether the Sheets service could be built, the result of each sensor
fetch (`none` models the adapter's `None` failure sentinel), whether
`AIRGRADIENT_INDOOR_SERIAL` is configured, and the success of each
spreadsheet append. -/
structure Env where
  serviceOk : Bool
  outdoor : Option Reading
  master : Option Reading
  indoor_serial_set : Bool
  second : Option Reading
  attic : Option TempReading
  appendOk : List Value → Bool

/-- `collect_with_sheets_api_v2.main`: fetch outdoor first and abort when
it fails; build one row per available indoor sensor (Airthings, optional
second-bedroom AirGradient, optional Temp Stick); append every built row.
The v2 `main` contains no local-backup write, so `backupWritten` is
always `false`. -/
def main (timestamp : String) (env : Env) : RunResult :=
  if env.serviceOk = false then ⟨[], 0, false, false⟩
  else
    match env.outdoor with
    | none => ⟨[], 0, false, false⟩
    | some outdoor =>
      let masterRows :=
        match env.master with
        | some m =>
            [build_air_quality_row timestamp m outdoor
              (calculate_efficiency m.pm25 outdoor.pm25)]
        | none => []
      let secondRows :=
        if env.indoor_serial_set then
          match env.second with
          | some s =>
              [build_air_quality_row timestamp s outdoor
                (calculate_efficiency s.pm25 outdoor.pm25)]
          | none => []
        else []
      let atticRows :=
        match env.attic with
        | some a => [build_temp_only_row timestamp a]
        | none => []
      let rows := masterRows ++ secondRows ++ atticRows
      ⟨rows, (rows.filter env.appendOk).length, false, false⟩

end V2

namespace V1

/-- `collect_with_sheets_api.calculate_efficiency`:
if `outdoor_pm25 > 0` return `round(max(0, min(100, e)), 1)`, else `0`. -/
def calculate_efficiency (indoor_pm25 outdoor_pm25 : ℚ) : ℚ :=
  if 0 < outdoor_pm25 then
    round1 (max 0 (min 100 ((outdoor_pm25 - indoor_pm25) / outdoor_pm25 * 100)))
  else 0

/-- The reading built by `collect_with_sheets_api.get_airthings_data`
(only the "results" response shape is handled there): `data` is the
sensorType-to-value dictionary extracted from `results[0]["sensors"]`.
Note `nox` is the number `0`, and `radon` reads the key `"radon"`. -/
def get_airthings_reading (serial_suffix : String)
    (data : List (String × ℚ)) : Reading :=
  { sensor_id := "airthings_" ++ serial_suffix
    room := "master_bedroom"
    sensor_type := "airthings"
    pm25 := dictGet data "pm25" 0
    co2 := .num (dictGet data "co2" 0)
    voc := .num (dictGet data "voc" 0)
    nox := .num 0
    temp := .num (dictGet data "temp" 0)
    humidity := .num (dictGet data "humidity" 0)
    radon := .num (dictGet data "radon" 0) }

/-- `collect_with_sheets_api.ensure_headers`, modelled on the current
first row of the sheet.  Returns `(wrote, returned)`.  In v1 the
already-correct branch falls through the `try` block to the trailing
`return False`, performing no write. -/
def ensure_headers (values : List (List String)) : Bool × Bool :=
  if values = [] ∨ values.headD [] ≠ canonicalHeaders then (true, true)
  else (false, false)

/-- The 18-field row literal assembled inline in
`collect_with_sheets_api.main` for each indoor sensor (same column order
as the v2 row builder; field 6 is the shared `outdoor_pm25`). -/
def build_row (timestamp : String) (sensor outdoor : Reading)
    (efficiency : ℚ) : List Value :=
  [ .str timestamp,
    .str sensor.sensor_id,
    .str sensor.room,
    .str sensor.sensor_type,
    .num sensor.pm25,
    .num outdoor.pm25,
    .num efficiency,
    sensor.co2,
    sensor.voc,
    sensor.nox,
    sensor.temp,
    sensor.humidity,
    sensor.radon,
    outdoor.co2,
    outdoor.temp,
    outdoor.humidity,
    outdoor.voc,
    outdoor.nox ]

/-- Inputs of one collection cycle of `collect_with_sheets_api.main`
(no attic sensor in v1). -/
structure Env where
  serviceOk : Bool
  outdoor : Option Reading
  master : Option Reading
  indoor_serial_set : Bool
  second : Option Reading
  appendOk : List Value → Bool

/-- `collect_with_sheets_api.main`: fetch outdoor first and abort when it
fails; build and append one row per available indoor sensor; then build
the backup dict and `json.dump` it to `/tmp/air_quality_latest.json`.
The backup dict reads the local variable `second`, which is only ever
assigned inside `if AIRGRADIENT_INDOOR_SERIAL:`; when that serial is not
configured the expression `[master, second] if second else [master]`
raises `NameError` before the backup write, modelled by
`crashed = true` and `backupWritten = false`. -/
def main (timestamp : String) (env : Env) : RunResult :=
  if env.serviceOk = false then ⟨[], 0, false, false⟩
  else
    match env.outdoor with
    | none => ⟨[], 0, false, false⟩
    | some outdoor =>
      let masterRows :=
        match env.master with
        | some m =>
            [build_row timestamp m outdoor (calculate_efficiency m.pm25 outdoor.pm25)]
        | none => []
      let secondRows :=
        if env.indoor_serial_set then
          match env.second with
          | some s =>
              [build_row timestamp s outdoor (calculate_efficiency s.pm25 outdoor.pm25)]
          | none => []
        else []
      let rows := masterRows ++ secondRows
      let successCount := (rows.filter env.appendOk).length
      if env.indoor_serial_set then ⟨rows, successCount, true, false⟩
      else ⟨rows, successCount, false, true⟩

end V1

namespace Legacy

/-- `collect_air_quality.calculate_filter_efficiency`:
if `outdoor_pm25 > 0` return `max(0, min(100, e))` (no rounding), else `0`. -/
def calculate_filter_efficiency (indoor_pm25 outdoor_pm25 : ℚ) : ℚ :=
  if 0 < outdoor_pm25 then max 0 (min 100 ((outdoor_pm25 - indoor_pm25) / outdoor_pm25 * 100))
  else 0

end Legacy

/-- The ratio formula of the specification, written as the spec words it:
`round(clamp(((outdoor - indoor) / outdoor) * 100, 0, 100), 2)` where
`clamp(x, lo, hi) = min(max(x, lo), hi)`.  Kept separate from
`V2.calculate_efficiency` (which follows the source) so the two can be
compared. -/
def spec_efficiency_formula (indoor_pm25 outdoor_pm25 : ℚ) : ℚ :=
  round2 (min (max ((outdoor_pm25 - indoor_pm25) / outdoor_pm25 * 100) 0) 100)

namespace FixSheets

/-- Python `"/" in s`: for the single-character needle `"/"` substring
membership coincides with membership of the character `'/'` in `s`. -/
def containsSlash (s : String) : Bool := s.data.contains '/'

/-- The scan loop of `SheetsFixer.analyze_schemas`:
`for i, row in enumerate(data[1:], start=2): if len(row) > 0 and "/" not
in row[0]: transition_row = i; break`.  `i` is the 1-indexed sheet row
number of `row` (the header is row 1). -/
def findTransition (rows : List (List String)) (i : ℕ) : Option ℕ :=
  match rows with
  | [] => none
  | [] :: rest => findTransition rest (i + 1)
  | (c :: _) :: rest => if containsSlash c then findTransition rest (i + 1) else some i

/-- `SheetsFixer.analyze_schemas` transition detection over the fetched
sheet `data` (header row first): the reported `transition_row`. -/
def analyze_schemas_transition (data : List (List String)) : Option ℕ :=
  findTransition (data.drop 1) 2

/-- The `new_rows` loop of `SheetsFixer.convert_old_data`:
`for row in data[transition_row-1:]: if len(row) == 18:
new_rows.append(row)`. -/
def new_schema_rows (data : List (List String)) (transition_row : ℕ) :
    List (List String) :=
  (data.drop (transition_row - 1)).filter (fun r => r.length == 18)

/-- The dataset assembled by `SheetsFixer.create_clean_sheet`:
`all_data = [headers] + converted_old + existing_new[1:]` (the slice is
commented "Skip duplicate header"). -/
def create_clean_sheet_data (headers : List String)
    (converted_old existing_new : List (List String)) : List (List String) :=
  headers :: (converted_old ++ existing_new.drop 1)

end FixSheets

/-! ### Concrete sample inputs used by witnesses and counterexamples -/

/-- A sample outdoor AirGradient reading (the dummy values used in the
v2 `test_local` routine). -/
def sampleOutdoor : Reading :=
  { sensor_id := "airgradient_abc123"
    room := "outdoor"
    sensor_type := "airgradient"
    pm25 := 10
    co2 := .num 420
    voc := .num 100
    nox := .num 1
    temp := .num 25
    humidity := .num 50
    radon := .str "" }

/-- A cycle in which the outdoor fetch fails, for the v2 orchestrator. -/
def c4EnvV2 : V2.Env :=
  { serviceOk := true
    outdoor := none
    master := none
    indoor_serial_set := false
    second := none
    attic := none
    appendOk := fun _ => true }

/-- A cycle in which the outdoor fetch fails, for the v1 orchestrator. -/
def c4EnvV1 : V1.Env :=
  { serviceOk := true
    outdoor := none
    master := none
    indoor_serial_set := false
    second := none
    appendOk := fun _ => true }

/-- A v2 cycle in which the outdoor fetch succeeds. -/
def c5EnvV2 : V2.Env :=
  { serviceOk := true
    outdoor := some sampleOutdoor
    master := none
    indoor_serial_set := false
    second := none
    attic := none
    appendOk := fun _ => true }

/-- A v1 cycle in which the outdoor fetch succeeds and the second-bedroom
serial is configured. -/
def c5EnvV1 : V1.Env :=
  { serviceOk := true
    outdoor := some sampleOutdoor
    master := some sampleOutdoor
    indoor_serial_set := true
    second := none
    appendOk := fun _ => true }

/-- An 18-column new-format row (first row after the schema transition). -/
def c8RowA : List String :=
  ["2025-08-31 00:00:00", "a", "a", "a", "a", "a", "a", "a", "a", "a", "a", "a",
   "a", "a", "a", "a", "a", "a"]

/-- A second 18-column new-format row. -/
def c8RowB : List String :=
  ["2025-08-31 01:00:00", "b", "b", "b", "b", "b", "b", "b", "b", "b", "b", "b",
   "b", "b", "b", "b", "b", "b"]

/-- A fetched sheet: header, one legacy row (`/`-format timestamp), then
two complete new-format rows. -/
def c8Data : List (List String) :=
  [["Timestamp", "Sensor_ID"], ["7/26/2025 13:27:51", "0"], c8RowA, c8RowB]

/-! ### Arithmetic facts about the rounding helper -/

theorem roundHalfEven_nonneg (q : ℚ) (h : 0 ≤ q) : 0 ≤ roundHalfEven q := by
  unfold roundHalfEven
  have hn : (0:ℤ) ≤ ⌊q⌋ := Int.floor_nonneg.mpr h
  split_ifs <;> omega

theorem roundHalfEven_le (q : ℚ) (B : ℤ) (h : q ≤ B) : roundHalfEven q ≤ B := by
  have hfB : ⌊q⌋ ≤ B := by
    have h2 := Int.floor_mono h
    simpa using h2
  have key : ¬(q - ⌊q⌋ < 1/2) → ⌊q⌋ + 1 ≤ B := by
    intro h1
    rcases eq_or_lt_of_le hfB with he | hl
    · exact absurd (by
        have hq : q ≤ (⌊q⌋ : ℚ) := by
          rw [he]; exact_mod_cast h
        linarith) h1
    · omega
  unfold roundHalfEven
  split_ifs with h1 h2 h3
  · exact hfB
  · exact key h1
  · exact hfB
  · exact key h1

theorem round2_nonneg (q : ℚ) (h : 0 ≤ q) : 0 ≤ round2 q := by
  unfold round2
  have h1 : (0:ℤ) ≤ roundHalfEven (q * 100) := roundHalfEven_nonneg _ (by linarith)
  have h2 : (0:ℚ) ≤ (roundHalfEven (q * 100) : ℚ) := by exact_mod_cast h1
  linarith

theorem round2_le_100 (q : ℚ) (h : q ≤ 100) : round2 q ≤ 100 := by
  unfold round2
  have h1 : roundHalfEven (q * 100) ≤ (10000:ℤ) := by
    apply roundHalfEven_le
    push_cast
    linarith
  have h2 : (roundHalfEven (q * 100) : ℚ) ≤ 10000 := by exact_mod_cast h1
  linarith

end HvacSpec

open HvacSpec

/-- C1: for every pair of non-negative inputs `(indoor_pm25, outdoor_pm25)`,
the v2 filter-efficiency calculator `calculate_efficiency` returns a value
in the closed interval `[0, 100]`. -/
theorem v2_calculate_efficiency_bounded (indoor_pm25 outdoor_pm25 : ℚ)
    (hi : 0 ≤ indoor_pm25) (ho : 0 ≤ outdoor_pm25) :
    0 ≤ V2.calculate_efficiency indoor_pm25 outdoor_pm25 ∧
      V2.calculate_efficiency indoor_pm25 outdoor_pm25 ≤ 100 := by
  unfold V2.calculate_efficiency
  split_ifs with h1 h2
  · norm_num
  · norm_num
  · have hx0 : (0:ℚ) ≤ max 0 (min 100 ((outdoor_pm25 - indoor_pm25) / outdoor_pm25 * 100)) :=
      le_max_left _ _
    have hx1 : max 0 (min 100 ((outdoor_pm25 - indoor_pm25) / outdoor_pm25 * 100)) ≤ 100 :=
      max_le (by norm_num) (min_le_left _ _)
    exact ⟨round2_nonneg _ hx0, round2_le_100 _ hx1⟩

/-- Witness for C1 at the concrete input `(1, 3)`. -/
theorem v2_calculate_efficiency_bounded_witness :
    (0:ℚ) ≤ 1 ∧ (0:ℚ) ≤ 3 ∧
      (0 ≤ V2.calculate_efficiency 1 3 ∧ V2.calculate_efficiency 1 3 ≤ 100) :=
  ⟨by norm_num, by norm_num, v2_calculate_efficiency_bounded 1 3 (by norm_num) (by norm_num)⟩

/-- C2 counterexample: the v1 calculator (`collect_with_sheets_api.py`) and
the legacy calculator (`collect_air_quality.py`) return `0`, not `100.0`,
on the both-zero input `(0, 0)`, so the edge-case policy does not hold for
every calculator variant. -/
theorem efficiency_zero_zero_counterexample :
    V1.calculate_efficiency 0 0 = 0 ∧ Legacy.calculate_filter_efficiency 0 0 = 0 ∧
      (0:ℚ) ≠ 100 :=
  ⟨by norm_num [V1.calculate_efficiency], by norm_num [Legacy.calculate_filter_efficiency],
    by norm_num⟩

/-- C2 amended: for `outdoor_pm25 <= 0` the v2 calculator returns `100.0`
when `indoor_pm25 <= 0` and `0.0` otherwise (in particular `100.0` at
`(0, 0)`), while the v1 and legacy calculators instead return `0` for
every input with `outdoor_pm25 <= 0`. -/
theorem efficiency_edge_case_policy (indoor_pm25 outdoor_pm25 : ℚ)
    (ho : outdoor_pm25 ≤ 0) :
    V2.calculate_efficiency indoor_pm25 outdoor_pm25
        = (if indoor_pm25 ≤ 0 then 100 else 0) ∧
      V1.calculate_efficiency indoor_pm25 outdoor_pm25 = 0 ∧
      Legacy.calculate_filter_efficiency indoor_pm25 outdoor_pm25 = 0 ∧
      V2.calculate_efficiency 0 0 = 100 := by
  refine ⟨?_, ?_, ?_, by norm_num [V2.calculate_efficiency]⟩
  · unfold V2.calculate_efficiency
    rw [if_pos ho]
  · unfold V1.calculate_efficiency
    rw [if_neg (not_lt.mpr ho)]
  · unfold Legacy.calculate_filter_efficiency
    rw [if_neg (not_lt.mpr ho)]

/-- Witness for the amended C2 at the concrete input `(0, 0)`. -/
theorem efficiency_edge_case_policy_witness :
    (0:ℚ) ≤ 0 ∧
      (V2.calculate_efficiency 0 0 = (if (0:ℚ) ≤ 0 then 100 else 0) ∧
        V1.calculate_efficiency 0 0 = 0 ∧
        Legacy.calculate_filter_efficiency 0 0 = 0 ∧
        V2.calculate_efficiency 0 0 = 100) :=
  ⟨le_refl 0, efficiency_edge_case_policy 0 0 (le_refl 0)⟩

/-- C3: for `outdoor_pm25 > 0` the v2 calculator returns exactly
`round(clamp(((outdoor - indoor) / outdoor) * 100, 0, 100), 2)`, and in
particular `calculate_efficiency(1, 3) = 66.67`,
`calculate_efficiency(5, 10) = 50.0`, `calculate_efficiency(20, 10) = 0.0`. -/
theorem v2_calculate_efficiency_formula (indoor_pm25 outdoor_pm25 : ℚ)
    (ho : 0 < outdoor_pm25) :
    V2.calculate_efficiency indoor_pm25 outdoor_pm25
        = spec_efficiency_formula indoor_pm25 outdoor_pm25 ∧
      V2.calculate_efficiency 1 3 = 6667/100 ∧
      V2.calculate_efficiency 5 10 = 50 ∧
      V2.calculate_efficiency 20 10 = 0 := by
  refine ⟨?_, ?_, ?_, ?_⟩
  · unfold V2.calculate_efficiency spec_efficiency_formula
    rw [if_neg (not_le.mpr ho)]
    congr 1
    simp only [max_def, min_def]
    split_ifs <;> linarith
  · norm_num [V2.calculate_efficiency, round2, roundHalfEven]
  · norm_num [V2.calculate_efficiency, round2, roundHalfEven]
  · norm_num [V2.calculate_efficiency, round2, roundHalfEven]

/-- Witness for C3 at the concrete input `(1, 3)`. -/
theorem v2_calculate_efficiency_formula_witness :
    (0:ℚ) < 3 ∧
      (V2.calculate_efficiency 1 3 = spec_efficiency_formula 1 3 ∧
        V2.calculate_efficiency 1 3 = 6667/100 ∧
        V2.calculate_efficiency 5 10 = 50 ∧
        V2.calculate_efficiency 20 10 = 0) :=
  ⟨by norm_num, v2_calculate_efficiency_formula 1 3 (by norm_num)⟩

/-- C4: in any collection cycle of either orchestrator's `main`, if the
outdoor fetch returns `None` the routine returns before any indoor row is
built, so zero rows are passed to `append_to_sheet`. -/
theorem main_aborts_when_outdoor_fails (timestamp : String)
    (e2 : V2.Env) (e1 : V1.Env)
    (h2 : e2.outdoor = none) (h1 : e1.outdoor = none) :
    (V2.main timestamp e2).appended = [] ∧ (V1.main timestamp e1).appended = [] := by
  constructor
  · unfold V2.main
    rw [h2]
    split_ifs <;> rfl
  · unfold V1.main
    rw [h1]
    split_ifs <;> rfl

/-- Witness for C4 at concrete cycles whose outdoor fetch fails. -/
theorem main_aborts_when_outdoor_fails_witness :
    c4EnvV2.outdoor = none ∧ c4EnvV1.outdoor = none ∧
      ((V2.main "2025-08-31 00:00:00" c4EnvV2).appended = [] ∧
        (V1.main "2025-08-31 00:00:00" c4EnvV1).appended = []) :=
  ⟨rfl, rfl, main_aborts_when_outdoor_fails "2025-08-31 00:00:00" c4EnvV2 c4EnvV1 rfl rfl⟩

/-- C5 counterexample: a v2 cycle in which the outdoor fetch succeeds and
no local JSON backup is written — the v2 `main` contains no backup write
at all, so the claim fails for the v2 orchestrator. -/
theorem v2_main_no_backup_counterexample :
    c5EnvV2.serviceOk = true ∧ c5EnvV2.outdoor = some sampleOutdoor ∧
      (V2.main "2025-08-31 00:00:00" c5EnvV2).backupWritten = false :=
  ⟨rfl, rfl, rfl⟩

/-- C5 amended: only the v1 orchestrator writes the local JSON backup.
When the outdoor fetch succeeds it does so regardless of append success,
but only when the second-bedroom serial is configured; when it is not,
the run raises `NameError` (reading the unassigned `second`) before the
backup write.  The v2 orchestrator never writes a backup. -/
theorem backup_write_policy (timestamp : String) (e1 : V1.Env) (e2 : V2.Env)
    (hs : e1.serviceOk = true) (ho : e1.outdoor.isSome = true) :
    (e1.indoor_serial_set = true →
        (V1.main timestamp e1).backupWritten = true ∧
          (V1.main timestamp e1).crashed = false) ∧
      (e1.indoor_serial_set = false →
        (V1.main timestamp e1).backupWritten = false ∧
          (V1.main timestamp e1).crashed = true) ∧
      (V2.main timestamp e2).backupWritten = false := by
  obtain ⟨o, ho2⟩ := Option.isSome_iff_exists.mp ho
  refine ⟨?_, ?_, ?_⟩
  · intro hser
    constructor <;> simp [V1.main, hs, ho2, hser]
  · intro hser
    constructor <;> simp [V1.main, hs, ho2, hser]
  · unfold V2.main
    cases h2 : e2.outdoor <;> split_ifs <;> rfl

/-- Witness for the amended C5 at concrete cycles. -/
theorem backup_write_policy_witness :
    c5EnvV1.serviceOk = true ∧ c5EnvV1.outdoor.isSome = true ∧
      c5EnvV1.indoor_serial_set = true ∧
      ((V1.main "2025-08-31 00:00:00" c5EnvV1).backupWritten = true ∧
        (V1.main "2025-08-31 00:00:00" c5EnvV1).crashed = false) ∧
      (V2.main "2025-08-31 00:00:00" c5EnvV2).backupWritten = false :=
  ⟨rfl, rfl, rfl,
    (backup_write_policy "2025-08-31 00:00:00" c5EnvV1 c5EnvV2 rfl rfl).1 rfl,
    (backup_write_policy "2025-08-31 00:00:00" c5EnvV1 c5EnvV2 rfl rfl).2.2⟩

/-- C6: both row builders return exactly 18 fields, and the temp-only row
has the empty string in the ten particulate/gas/efficiency/radon slots
(Indoor_PM25, Outdoor_PM25, Filter_Efficiency, Indoor_CO2, Indoor_VOC,
Indoor_NOX, Indoor_Radon, Outdoor_CO2, Outdoor_VOC, Outdoor_NOX — the
0-indexed positions 4-9, 12, 13, 16, 17). -/
theorem row_builder_shape (timestamp : String) (sensor outdoor : Reading)
    (efficiency : ℚ) (tsensor : TempReading) :
    (V2.build_air_quality_row timestamp sensor outdoor efficiency).length = 18 ∧
      (V2.build_temp_only_row timestamp tsensor).length = 18 ∧
      (V2.build_temp_only_row timestamp tsensor).getD 4 (.num 0) = .str "" ∧
      (V2.build_temp_only_row timestamp tsensor).getD 5 (.num 0) = .str "" ∧
      (V2.build_temp_only_row timestamp tsensor).getD 6 (.num 0) = .str "" ∧
      (V2.build_temp_only_row timestamp tsensor).getD 7 (.num 0) = .str "" ∧
      (V2.build_temp_only_row timestamp tsensor).getD 8 (.num 0) = .str "" ∧
      (V2.build_temp_only_row timestamp tsensor).getD 9 (.num 0) = .str "" ∧
      (V2.build_temp_only_row timestamp tsensor).getD 12 (.num 0) = .str "" ∧
      (V2.build_temp_only_row timestamp tsensor).getD 13 (.num 0) = .str "" ∧
      (V2.build_temp_only_row timestamp tsensor).getD 16 (.num 0) = .str "" ∧
      (V2.build_temp_only_row timestamp tsensor).getD 17 (.num 0) = .str "" :=
  ⟨rfl, rfl, rfl, rfl, rfl, rfl, rfl, rfl, rfl, rfl, rfl, rfl⟩

/-- Helper for C7: scanning `legacy ++ (c :: cs) :: rest` from row index
`i`, where every legacy row starts with a `/`-containing column and `c`
does not contain `/`, stops exactly at index `i + legacy.length`. -/
theorem findTransition_append (c : String) (cs : List String)
    (rest : List (List String)) (hc : FixSheets.containsSlash c = false) :
    ∀ (legacy : List (List String)) (i : ℕ),
      (∀ r ∈ legacy, ∃ c0 cs0, r = c0 :: cs0 ∧ FixSheets.containsSlash c0 = true) →
      FixSheets.findTransition (legacy ++ (c :: cs) :: rest) i
        = some (i + legacy.length) := by
  intro legacy
  induction legacy with
  | nil =>
    intro i _
    simp [FixSheets.findTransition, hc]
  | cons r rs ih =>
    intro i hleg
    obtain ⟨c0, cs0, hr, hc0⟩ := hleg r (by simp)
    subst hr
    simp only [List.cons_append, FixSheets.findTransition, hc0, if_true, List.append_eq]
    rw [ih (i + 1) (fun r2 hr2 => hleg r2 (by simp [hr2]))]
    congr 1
    simp only [List.length_cons]
    omega

/-- C7 counterexample: with a header row, `N = 1` legacy data row and one
new-format data row, the detector reports row `3`, not `N + 1 = 2`. -/
theorem transition_detection_counterexample :
    FixSheets.analyze_schemas_transition
        [["Timestamp"], ["7/26/2025 13:27:51"], ["2025-08-31 12:00:00"]] = some 3 ∧
      (3 : ℕ) ≠ 1 + 1 :=
  ⟨rfl, by decide⟩

/-- C7 amended: with a header row followed by `N` legacy data rows (first
column contains `/`) and then a data row whose first column does not
contain `/`, the detector reports the transition at row `N + 2`
(1-indexed, the header being row 1) — the sheet row index of the first
new-format data row. -/
theorem transition_detection (hdr : List String) (legacy : List (List String))
    (c : String) (cs : List String) (rest : List (List String))
    (hleg : ∀ r ∈ legacy, ∃ c0 cs0, r = c0 :: cs0 ∧ FixSheets.containsSlash c0 = true)
    (hc : FixSheets.containsSlash c = false) :
    FixSheets.analyze_schemas_transition (hdr :: (legacy ++ (c :: cs) :: rest))
      = some (legacy.length + 2) := by
  unfold FixSheets.analyze_schemas_transition
  simp only [List.drop_succ_cons, List.drop_zero]
  rw [findTransition_append c cs rest hc legacy 2 hleg]
  congr 1
  omega

/-- Witness for the amended C7 with `N = 1`. -/
theorem transition_detection_witness :
    (∀ r ∈ [["7/26/2025 13:27:51"]],
        ∃ c0 cs0, r = c0 :: cs0 ∧ FixSheets.containsSlash c0 = true) ∧
      FixSheets.containsSlash "2025-08-31 12:00:00" = false ∧
      FixSheets.analyze_schemas_transition
          [["Timestamp"], ["7/26/2025 13:27:51"], ["2025-08-31 12:00:00"]]
        = some (1 + 2) :=
  ⟨fun r hr => ⟨"7/26/2025 13:27:51", [], by simpa using hr, by decide⟩, by decide,
    transition_detection ["Timestamp"] [["7/26/2025 13:27:51"]] "2025-08-31 12:00:00" [] []
      (fun r hr => ⟨"7/26/2025 13:27:51", [], by simpa using hr, by decide⟩) (by decide)⟩

/-- C8 counterexample: on `c8Data` the detector reports transition row 3;
`c8RowA` is an 18-column row at the transition point, yet it is absent
from the assembled clean dataset — the assembly drops the first element
of the new-format row list. -/
theorem clean_sheet_drops_first_new_row :
    FixSheets.analyze_schemas_transition c8Data = some 3 ∧
      c8RowA.length = 18 ∧ c8RowA ∈ c8Data.drop (3 - 1) ∧
      c8RowA ∉ FixSheets.create_clean_sheet_data canonicalHeaders []
          (FixSheets.new_schema_rows c8Data 3) := by
  refine ⟨rfl, rfl, by decide, by decide⟩

/-- C8 amended: in the cleaned dataset, the section after the header and
the converted legacy rows equals the 18-column rows at/after the
transition with the first such row removed; hence every row in that
section has exactly 18 columns and comes from at/after the transition,
and every 18-column row at/after the transition other than the first
appears. -/
theorem clean_sheet_new_format_rows (data : List (List String)) (t : ℕ)
    (hdr : List String) (conv : List (List String)) :
    ((FixSheets.create_clean_sheet_data hdr conv
          (FixSheets.new_schema_rows data t)).drop (conv.length + 1)
        = ((data.drop (t - 1)).filter (fun r => r.length == 18)).drop 1) ∧
      (∀ r ∈ (FixSheets.create_clean_sheet_data hdr conv
            (FixSheets.new_schema_rows data t)).drop (conv.length + 1),
          r.length = 18 ∧ r ∈ data.drop (t - 1)) := by
  have hdrop : (FixSheets.create_clean_sheet_data hdr conv
        (FixSheets.new_schema_rows data t)).drop (conv.length + 1)
      = (FixSheets.new_schema_rows data t).drop 1 := by
    unfold FixSheets.create_clean_sheet_data
    rw [List.drop_succ_cons]
    rw [List.drop_append_of_le_length (le_refl conv.length)]
    simp
  refine ⟨by rw [hdrop]; rfl, ?_⟩
  intro r hr
  rw [hdrop] at hr
  have hr2 : r ∈ FixSheets.new_schema_rows data t := List.mem_of_mem_drop hr
  unfold FixSheets.new_schema_rows at hr2
  have h3 := List.mem_filter.mp hr2
  exact ⟨by simpa using h3.2, h3.1⟩

/-- Witness for the amended C8 on the concrete dataset `c8Data`. -/
theorem clean_sheet_new_format_rows_witness :
    ((FixSheets.create_clean_sheet_data canonicalHeaders []
          (FixSheets.new_schema_rows c8Data 3)).drop 1
        = ((c8Data.drop 2).filter (fun r => r.length == 18)).drop 1) ∧
      (c8RowB.length = 18 ∧ c8RowB ∈ c8Data.drop 2) :=
  ⟨(clean_sheet_new_format_rows c8Data 3 canonicalHeaders []).1,
    (clean_sheet_new_format_rows c8Data 3 canonicalHeaders []).2 c8RowB (by decide)⟩

/-- C9 counterexample: the v1 Airthings adapter reports `nox` as the
number `0`, not the empty string, so the empty-string policy does not
hold for every collector variant's Airthings adapter. -/
theorem v1_airthings_nox_counterexample :
    (V1.get_airthings_reading "129430" []).nox = .num 0 ∧
      Value.num 0 ≠ Value.str "" :=
  ⟨rfl, by decide⟩

/-- C9 amended: the v2 Airthings adapter reports `nox` as the empty
string in both vendor response shapes, for every payload; the v1 adapter
instead reports the number `0`. -/
theorem airthings_nox_empty (serial_suffix : String)
    (d1 d2 d3 : List (String × ℚ)) :
    (V2.get_airthings_reading_new serial_suffix d1).nox = .str "" ∧
      (V2.get_airthings_reading_old serial_suffix d2).nox = .str "" ∧
      (V1.get_airthings_reading serial_suffix d3).nox = .num 0 :=
  ⟨rfl, rfl, rfl⟩

/-- C10: when the sheet's first row already equals the canonical
18-header list, v1 `ensure_headers` performs no write and returns
`False`; it returns `True` exactly when it has just overwritten the
header row; v2 `ensure_headers` returns `True` in both branches. -/
theorem v1_ensure_headers_return (values : List (List String))
    (h : values.headD [] = canonicalHeaders) :
    V1.ensure_headers values = (false, false) ∧
      (∀ vs : List (List String),
        (V1.ensure_headers vs).2 = true ↔ (V1.ensure_headers vs).1 = true) ∧
      (∀ vs : List (List String), (V2.ensure_headers vs).2 = true) := by
  refine ⟨?_, ?_, ?_⟩
  · have hne : values ≠ [] := by
      intro he
      rw [he] at h
      exact absurd h (by decide)
    unfold V1.ensure_headers
    rw [if_neg]
    push_neg
    exact ⟨hne, h⟩
  · intro vs
    unfold V1.ensure_headers
    split_ifs <;> simp
  · intro vs
    unfold V2.ensure_headers
    split_ifs <;> rfl

/-- Witness for C10 on a sheet whose first row is already canonical. -/
theorem v1_ensure_headers_return_witness :
    ([canonicalHeaders] : List (List String)).headD [] = canonicalHeaders ∧
      (V1.ensure_headers [canonicalHeaders] = (false, false) ∧
        (∀ vs : List (List String),
          (V1.ensure_headers vs).2 = true ↔ (V1.ensure_headers vs).1 = true) ∧
        (∀ vs : List (List String), (V2.ensure_headers vs).2 = true)) :=
  ⟨rfl, v1_ensure_headers_return [canonicalHeaders] rfl⟩
